import Mathlib

/-!
Verification of the StudGram bot's Conversation State & Access-Control Engine.

This development shallowly embeds the Python source of the bot
(`StudGram_bot/services/bot_service.py`, `cache.py`, `university_service.py`,
`studgram_api.py`, `main.py`) into Lean and proves the specified properties
about the embedded definitions.

Conventions of the embedding:
* Python `dict`s are modelled as insertion-ordered association lists
  (`List (κ × α)`): inserting a fresh key appends at the end, inserting an
  existing key replaces it in place, deletion removes the key.  Keys of a
  Python dict are unique, so removal of every occurrence coincides with
  Python's `del`.
* Python strings are modelled as `List Char` where character-level operations
  (split / replace) matter, and as Lean `String` where they are opaque ids.
* A Python value that may be `None` is modelled as `Option α`; a function
  that returns a value where `None` doubles as the "absent" sentinel keeps
  that conflation (it returns `Option α` and returns `none` on both paths),
  matching the source faithfully.
* Time is a `Nat` tick; `datetime.now() - timestamp < ttl` becomes
  `now - timestamp < ttl` with truncated subtraction.
* `await`-ed external calls are passed in as explicit parameters holding the
  result the call would produce (`Option` for fallible calls).
-/

namespace StudGram

/-! ## Association lists: the model of Python dicts -/

/-- Lookup in an insertion-ordered association list (Python `d[k]` / `k in d`). -/
def alistLookup {κ α : Type} [DecidableEq κ] : List (κ × α) → κ → Option α
  | [], _ => none
  | (k', v) :: rest, k => if k' = k then some v else alistLookup rest k

/-- Insertion (Python `d[k] = v`): replaces an existing key in place,
otherwise appends at the end (Python dicts preserve insertion order). -/
def alistInsert {κ α : Type} [DecidableEq κ] : List (κ × α) → κ → α → List (κ × α)
  | [], k, v => [(k, v)]
  | (k', v') :: rest, k, v =>
    if k' = k then (k, v) :: rest else (k', v') :: alistInsert rest k v

/-- Deletion (Python `del d[k]`); dict keys are unique, so removing every
occurrence coincides with removing the single binding. -/
def alistErase {κ α : Type} [DecidableEq κ] : List (κ × α) → κ → List (κ × α)
  | [], _ => []
  | (k', v') :: rest, k =>
    if k' = k then alistErase rest k else (k', v') :: alistErase rest k

/-! ## `services/cache.py` — the TTL cache

`Cache._cache` maps a string key to a `(value, timestamp)` pair.  Values are
arbitrary Python objects that may be `None`, hence `Option α`; `Cache.get`
returns the stored value on a fresh hit and Python `None` (here `none`) on a
miss or an expired entry — the two outcomes share the sentinel exactly as in
the source. -/

structure Cache (α : Type) where
  entries : List (String × (Option α × Nat))
  ttl : Nat
deriving DecidableEq

/-- Model of `Cache.get`: on a hit, if `now - timestamp < ttl` return the stored value
unchanged; otherwise delete the entry and return `None`; on a miss return
`None`.  Returns the (possibly updated) cache alongside. -/
def Cache.get {α : Type} (c : Cache α) (key : String) (now : Nat) :
    Option α × Cache α :=
  match alistLookup c.entries key with
  | some (v, timestamp) =>
    if now - timestamp < c.ttl then (v, c)
    else (none, ⟨alistErase c.entries key, c.ttl⟩)
  | none => (none, c)

/-- Model of `Cache.set`: always overwrites, storing `(value, now)`. -/
def Cache.set {α : Type} (c : Cache α) (key : String) (v : Option α) (now : Nat) :
    Cache α :=
  ⟨alistInsert c.entries key (v, now), c.ttl⟩

/-- Model of `Cache.clear`. -/
def Cache.clear {α : Type} (c : Cache α) : Cache α := ⟨[], c.ttl⟩

/-! ## `models/user.py` and `models/enums.py` (the fields the engine reads) -/

inductive UserStatus where
  | pending
  | approved
  | rejected
deriving DecidableEq

/-- Model of `models/user.py` `User`, restricted to the identity / affiliation /
approval fields that the state-and-access engine reads or writes (the UI
fields `in_chat_mode`, calendar state, and the schedule fields are carried
by the same record in the source but are irrelevant to every claim here). -/
structure User where
  user_id : Nat
  full_name : List Char
  university : List Char
  group : List Char
  status : UserStatus
  system_id : Option String
  faculty : Option (List Char)
  application_approved : Bool
deriving DecidableEq

/-- Python truthiness of an optional string (as in `if not user.system_id`):
`None` and the empty string are falsy. -/
def pyTruthyStr : Option String → Bool
  | none => false
  | some s => s ≠ ""

/-! ## `studgram_api.py` `get_student_application_status`

The HTTP layer's outcome is a parameter: `none` models a request that raised
(timeout / connection / HTTP error) or returned `None`; `some fields` models
a returned JSON object (association list of fields).  The source returns the
`approved` field when `result` is truthy and the field is present, else
`None`. -/

def get_student_application_status
    (result : Option (List (String × Bool))) : Option Bool :=
  match result with
  | none => none
  | some fields =>
    if fields = [] then none
    else
      match alistLookup fields "approved" with
      | some b => some b
      | none => none

/-! ## `bot_service.py` `_check_access` (the AccessGate) -/

/-- Result of one `_check_access` call: the (possibly mutated) user record,
the boolean returned, and whether the remote approval-status query was
issued on this call. -/
structure AccessCheck where
  user : User
  result : Bool
  remoteCalled : Bool
deriving DecidableEq

/-- Model of `BotService._check_access`, lines 29-56: no `system_id` → `False`
without a remote call; `application_approved` *and* `status == APPROVED` →
`True` without a remote call; otherwise one remote query (its outcome is the
`api` parameter, `none` when it failed or carried no usable `approved`
field): `some true` approves and persists, `some false` stores the flag and
returns `False`, `none` returns `False` with no mutation. -/
def check_access (u : User) (api : Option Bool) : AccessCheck :=
  if ¬ pyTruthyStr u.system_id then ⟨u, false, false⟩
  else if u.application_approved ∧ u.status = UserStatus.approved then
    ⟨u, true, false⟩
  else
    match api with
    | some true =>
      ⟨{ u with application_approved := true, status := UserStatus.approved },
        true, true⟩
    | some false =>
      ⟨{ u with application_approved := false }, false, true⟩
    | none => ⟨u, false, true⟩

/-! ## `university_service.py` — directory entries and cached lookups -/

/-- Model of one institution / faculty / group record of the external
directory (a JSON object with `id`, `title`, `abbreviation` fields). -/
structure RefEntry where
  id : String
  title : List Char
  abbreviation : List Char
deriving DecidableEq

/-- Model of `UniversityService.get_universities`: read the cache under key
`"universities"`; a non-`None` cached value is returned as is; otherwise the
upstream fetch result (the `fetched` parameter, `none` when the API returned
`None`) is stored and `fetched or []` returned.  The third component records
whether the upstream fetch was performed. -/
def get_universities (c : Cache (List RefEntry)) (now : Nat)
    (fetched : Option (List RefEntry)) :
    List RefEntry × Cache (List RefEntry) × Bool :=
  let r := c.get "universities" now
  match r.1 with
  | some insts => (insts, r.2, false)
  | none =>
    let c2 := r.2.set "universities" fetched now
    (fetched.getD [], c2, true)

/-! ## `validate_full_name` and the FULL_NAME step (`main.py` lines 127-144)

Python's `str.split()` (split on whitespace runs, no empty tokens) and
`str.isalpha()` are modelled over `List Char`, parameterised by the character
classes `space` and `alpha` (Python's notions are Unicode-wide; no claim
depends on which characters are letters). -/

/-- Accumulator-style worker for `pyWords`. -/
def pyWordsAux (space : Char → Bool) : List Char → List Char → List (List Char)
  | [], cur => if cur.isEmpty then [] else [cur.reverse]
  | c :: rest, cur =>
    if space c then
      if cur.isEmpty then pyWordsAux space rest []
      else cur.reverse :: pyWordsAux space rest []
    else pyWordsAux space rest (c :: cur)

/-- Model of Python `text.strip().split()`: the whitespace-separated tokens
(leading/trailing whitespace never yields tokens, so `strip()` is
absorbed). -/
def pyWords (space : Char → Bool) (l : List Char) : List (List Char) :=
  pyWordsAux space l []

/-- Model of Python `str.isalpha()`: nonempty and every character
alphabetic. -/
def pyIsAlpha (alpha : Char → Bool) (p : List Char) : Bool :=
  !p.isEmpty && p.all alpha

/-- Model of `UniversityService.validate_full_name`, lines 96-108: fewer than
2 tokens, more than 3 tokens, a non-alphabetic token, or a total length below
5 reject; otherwise accept.  The length test is on the whole input string, as
in the source (the bot strips inbound text before this call). -/
def validate_full_name (alpha space : Char → Bool) (full_name : List Char) :
    Bool × String :=
  let name_parts := pyWords space full_name
  if name_parts.length < 2 then
    (false, "Введите полное ФИО (Имя и Фамилия)")
  else if 3 < name_parts.length then
    (false, "Слишком много слов в ФИО")
  else if name_parts.any (fun part => !pyIsAlpha alpha part) then
    (false, "ФИО должно содержать только буквы")
  else if full_name.length < 5 then
    (false, "ФИО слишком короткое")
  else
    (true, "ФИО корректно")

/-! ## `bot_service.py` — registration data and the shared in-memory state -/

/-- Registration step names, as stored in the `"step"` field of a pending
registration dict (`"full_name"`, `"university"`, `"faculty"`, `"group"`,
`"confirmation"`). -/
inductive RStep where
  | full_name
  | university
  | faculty
  | group
  | confirmation
deriving DecidableEq

/-- Model of one `pending_registrations[user_id]` dict; optional fields model
keys not yet added to the dict. -/
structure RegData where
  step : RStep
  chat_id : Nat
  full_name : Option (List Char) := none
  university : Option (List Char) := none
  institution_id : Option String := none
  faculty : Option (List Char) := none
  faculty_id : Option String := none
  group : Option (List Char) := none
  group_id : Option String := none
deriving DecidableEq

/-- The process-wide shared state of `config.py`: `users_db`,
`pending_registrations` and `active_chats` (chat_id → user_id). -/
structure BotState where
  users : List (Nat × User)
  pending : List (Nat × RegData)
  activeChats : List (Nat × Nat)
deriving DecidableEq

/-- The empty state the process starts with. -/
def initState : BotState := ⟨[], [], []⟩

/-- The dict created by `start_registration`:
`{"step": "full_name", "chat_id": chat_id}`. -/
def fresh_reg (chatId : Nat) : RegData :=
  { step := RStep.full_name, chat_id := chatId }

/-- Recording `active_chats[chat_id] = user_id` (done on every inbound
event). -/
def touch_chat (chatId uid : Nat) (s : BotState) : BotState :=
  { s with activeChats := alistInsert s.activeChats chatId uid }

/-- Model of `BotService.start_registration`, lines 879-890: creates the fresh
pending dict and records the chat index entry. -/
def start_registration (chatId uid : Nat) (s : BotState) : BotState :=
  { s with pending := alistInsert s.pending uid (fresh_reg chatId),
           activeChats := alistInsert s.activeChats chatId uid }

/-- Model of `BotService.restart_registration`, lines 1437-1449: deletes the
pending dict then calls `start_registration`. -/
def restart_registration (chatId uid : Nat) (s : BotState) : BotState :=
  start_registration chatId uid { s with pending := alistErase s.pending uid }

/-- Model of `BotService._force_restart_registration`, lines 110-120: deletes
the user record and the pending dict, then calls `start_registration`. -/
def force_restart_registration (chatId uid : Nat) (s : BotState) : BotState :=
  start_registration chatId uid
    { s with users := alistErase s.users uid, pending := alistErase s.pending uid }

/-- Worker for the `active_chats` cleanup loop of `_handle_student_not_found`
(delete the first entry whose value is the user id, then `break`). -/
def remove_first_value : List (Nat × Nat) → Nat → List (Nat × Nat)
  | [], _ => []
  | (k, v) :: rest, target =>
    if v = target then rest else (k, v) :: remove_first_value rest target

/-- Model of the state mutations of `BotService._handle_student_not_found`,
lines 75-108: the user record is deleted and its chat-index entry removed. -/
def student_not_found_cleanup (uid : Nat) (s : BotState) : BotState :=
  { s with users := alistErase s.users uid,
           activeChats := remove_first_value s.activeChats uid }

/-- Model of `main._handle_registration`, lines 127-144: at the FULL_NAME
step a valid input stores the name and advances to UNIVERSITY, an invalid
input changes nothing (re-prompt only); at any other step the function does
not touch the dict. -/
def handle_registration_full_name (alpha space : Char → Bool) (rd : RegData)
    (text : List Char) : RegData :=
  if rd.step = RStep.full_name then
    if (validate_full_name alpha space text).1 then
      { rd with full_name := some text, step := RStep.university }
    else rd
  else rd

/-! ## `bot_service.py` — selection handlers (wizard transitions) -/

/-- Model of `BotService.handle_university_selection`, lines 1244-1269.  The
directory lookup `get_university_by_name(university)` is the `instLookup`
parameter. -/
def handle_university_selection (uid : Nat) (instLookup : Option RefEntry)
    (university : List Char) (s : BotState) : BotState × Bool :=
  match alistLookup s.pending uid with
  | none => (s, false)
  | some rd =>
    match instLookup with
    | none => (s, false)
    | some inst =>
      let rd' := { rd with university := some university,
                           institution_id := some inst.id,
                           step := RStep.faculty }
      ({ s with pending := alistInsert s.pending uid rd' }, true)

/-- Model of `BotService.handle_faculty_selection`, lines 1271-1302: requires
a pending registration whose `institution_id` is present (truthy); the
directory lookup under that institution is the `facLookup` parameter. -/
def handle_faculty_selection (uid : Nat) (facLookup : Option RefEntry)
    (faculty : List Char) (s : BotState) : BotState × Bool :=
  match alistLookup s.pending uid with
  | none => (s, false)
  | some rd =>
    if pyTruthyStr rd.institution_id then
      match facLookup with
      | none => (s, false)
      | some fac =>
        let rd' := { rd with faculty := some faculty,
                             faculty_id := some fac.id,
                             step := RStep.group }
        ({ s with pending := alistInsert s.pending uid rd' }, true)
    else (s, false)

/-- Model of `BotService.handle_group_selection`, lines 1304-1331: requires a
pending registration whose `institution_id` and `faculty_id` are both present
(truthy); the group lookup is the `grpLookup` parameter. -/
def handle_group_selection (uid : Nat) (grpLookup : Option RefEntry)
    (group : List Char) (s : BotState) : BotState × Bool :=
  match alistLookup s.pending uid with
  | none => (s, false)
  | some rd =>
    if pyTruthyStr rd.institution_id ∧ pyTruthyStr rd.faculty_id then
      match grpLookup with
      | none => (s, false)
      | some grp =>
        let rd' := { rd with group := some group,
                             group_id := some grp.id,
                             step := RStep.confirmation }
        ({ s with pending := alistInsert s.pending uid rd' }, true)
    else (s, false)

/-! ## `bot_service.py` `complete_registration` — the commit -/

/-- Outcome surfaced by `complete_registration`: `errorReply` models the
`except` path (a generic error message, no state change); `registered w`
models the normal path, where `w` is true exactly when the final message
carries the "could not fully synchronize with StudGram" warning (the
`registration_success == False` branch, lines 1504-1509). -/
inductive CommitResult where
  | errorReply
  | registered (syncWarning : Bool)
deriving DecidableEq

/-- Model of `BotService.complete_registration`, lines 1451-1528.
`regSuccess` is the boolean returned by `register_user_in_system` (false on
any external failure; the function catches its own exceptions) and `sysId`
the result of `get_student_by_max_id`.  If the dict is missing `full_name`,
`university` or `group`, the subscripts raise and the handler's `except`
keeps the state unchanged.  Otherwise a `User` with `status=PENDING`,
`application_approved=False` is stored in `users_db` and the pending dict is
deleted, with no suspension point in between. -/
def complete_registration (uid : Nat) (rd : RegData) (regSuccess : Bool)
    (sysId : Option String) (s : BotState) : BotState × CommitResult :=
  match rd.full_name, rd.university with
  | some fn, some un =>
    match rd.group with
    | some g =>
      let user : User :=
        ⟨uid, fn, un, g, UserStatus.pending, sysId, rd.faculty, false⟩
      ({ s with users := alistInsert s.users uid user,
                pending := alistErase s.pending uid },
       CommitResult.registered (!regSuccess))
    | none => (s, CommitResult.errorReply)
  | _, _ => (s, CommitResult.errorReply)

/-! ## `bot_service.py` `handle_menu_callback` — acting-user resolution -/

/-- Python truthiness of an optional integer id (`if not user_id`): `None`
and `0` are falsy. -/
def pyTruthyId : Option Nat → Bool
  | none => false
  | some n => n ≠ 0

/-- The final `if not user_id:` check of the resolution: a falsy id becomes
an unresolved outcome. -/
def pyFinalize (u : Option Nat) : Option Nat :=
  if pyTruthyId u then u else none

/-- The `users_db` fallback loop of `handle_menu_callback` (lines 1126-1131):
runs only with a falsy id in hand; takes the first user of the dict in
insertion order and repairs the chat index, or keeps the falsy id when
`users_db` is empty. -/
def fallback_users (chatId : Nat) (u2 : Option Nat) (s : BotState) :
    Option Nat × BotState :=
  match s.users with
  | [] => (pyFinalize u2, s)
  | p :: _ => (pyFinalize (some p.1), touch_chat chatId p.1 s)

/-- Model of the acting-user resolution prefix of
`BotService.handle_menu_callback`, lines 1110-1136: consult `active_chats`;
if absent, scan `pending_registrations` for a matching `chat_id` (repairing
the index); if the id in hand is still falsy, fall back to the first record
of `users_db`; a still-falsy id resolves to `none` ("user not found"). -/
def resolve_menu_user (s : BotState) (chatId : Nat) : Option Nat × BotState :=
  match alistLookup s.activeChats chatId with
  | some u => (pyFinalize (some u), s)
  | none =>
    match s.pending.find? (fun p => p.2.chat_id == chatId) with
    | some pr =>
      let s1 := touch_chat chatId pr.1 s
      if pyTruthyId (some pr.1) then (some pr.1, s1)
      else fallback_users chatId (some pr.1) s1
    | none => fallback_users chatId none s

/-! ## The serialized event-step relation

One constructor per state-mutating dispatch of the engine, with the guards
exactly as checked at the call sites; each inbound event is one atomic step
(the single-event-loop semantics; mutations of one handler between
suspension points are not interleaved). -/

inductive SysStep (alpha space : Char → Bool) : BotState → BotState → Prop where
  | botStartedNew (s : BotState) (chatId uid : Nat) :
      alistLookup s.users uid = none →
      SysStep alpha space s (start_registration chatId uid (touch_chat chatId uid s))
  | botStartedKnown (s : BotState) (chatId uid : Nat) (u : User) :
      alistLookup s.users uid = some u →
      SysStep alpha space s (touch_chat chatId uid s)
  | msgRegistration (s : BotState) (chatId uid : Nat) (rd : RegData)
      (text : List Char) :
      alistLookup s.pending uid = some rd →
      SysStep alpha space s
        { touch_chat chatId uid s with
            pending := alistInsert s.pending uid
              (handle_registration_full_name alpha space rd text) }
  | msgStartRegistration (s : BotState) (chatId uid : Nat) :
      alistLookup s.pending uid = none →
      alistLookup s.users uid = none →
      SysStep alpha space s (start_registration chatId uid (touch_chat chatId uid s))
  | msgUserUpdate (s : BotState) (chatId uid : Nat) (u u' : User) :
      alistLookup s.users uid = some u →
      SysStep alpha space s
        { touch_chat chatId uid s with users := alistInsert s.users uid u' }
  | universitySel (s : BotState) (uid : Nat) (look : Option RefEntry)
      (label : List Char) :
      SysStep alpha space s (handle_university_selection uid look label s).1
  | facultySel (s : BotState) (uid : Nat) (look : Option RefEntry)
      (label : List Char) :
      SysStep alpha space s (handle_faculty_selection uid look label s).1
  | groupSel (s : BotState) (uid : Nat) (look : Option RefEntry)
      (label : List Char) :
      SysStep alpha space s (handle_group_selection uid look label s).1
  | confirmYes (s : BotState) (uid : Nat) (rd : RegData) (regSuccess : Bool)
      (sysId : Option String) :
      alistLookup s.pending uid = some rd →
      SysStep alpha space s (complete_registration uid rd regSuccess sysId s).1
  | confirmNo (s : BotState) (chatId uid : Nat) (rd : RegData) :
      alistLookup s.pending uid = some rd →
      SysStep alpha space s (restart_registration chatId uid s)
  | studentNotFound (s : BotState) (uid : Nat) :
      SysStep alpha space s (student_not_found_cleanup uid s)
  | forceRestart (s : BotState) (chatId uid : Nat) :
      SysStep alpha space s (force_restart_registration chatId uid s)

/-- States reachable from the empty start state through dispatched events. -/
def Reachable (alpha space : Char → Bool) (s : BotState) : Prop :=
  Relation.ReflTransGen (SysStep alpha space) initState s

/-- The exclusivity invariant of the data model: no user id simultaneously
has a user record and a pending registration. -/
def Inv (s : BotState) : Prop :=
  ∀ uid : Nat, alistLookup s.users uid = none ∨ alistLookup s.pending uid = none

/-! ## The callback codec

Outgoing selection buttons carry `"{action}_{user_id}_{label with spaces
replaced by underscore}"` (`send_university_selection` line 913-914,
`send_faculty_selection` 960-961, `send_group_selection` 1018-1019).
`handle_callback` (lines 1083-1099) decodes by `split("_", 2)` and
`parts[2].replace("_", " ")`. -/

/-- Model of Python `s.replace(a, b)` for single characters. -/
def py_replace (a b : Char) (l : List Char) : List Char :=
  l.map (fun c => if c = a then b else c)

/-- Splitting a string at the first occurrence of `sep`: `none` when `sep`
does not occur.  Iterating this is `split(sep, maxsplit)`. -/
def split_first (sep : Char) : List Char → Option (List Char × List Char)
  | [] => none
  | c :: rest =>
    if c = sep then some ([], rest)
    else
      match split_first sep rest with
      | none => none
      | some (pre, post) => some (c :: pre, post)

/-- Encoding of a selection button payload: the action token, the user id and
the label (interior spaces replaced by `'_'`), joined by `'_'`. -/
def encode_selection (action userId label : List Char) : List Char :=
  action ++ '_' :: (userId ++ '_' :: py_replace ' ' '_' label)

/-- Decoding as in `handle_callback`: `split("_", 2)` must yield three parts
(otherwise the payload is unroutable, `none`), and the third part has `'_'`
replaced back by spaces. -/
def decode_selection (payload : List Char) :
    Option (List Char × List Char × List Char) :=
  match split_first '_' payload with
  | none => none
  | some (p0, r1) =>
    match split_first '_' r1 with
    | none => none
    | some (p1, r2) => some (p0, p1, py_replace '_' ' ' r2)

/-! # Theorems -/

/-! ## Association-list lemmas -/

theorem alistLookup_insert_self {κ α : Type} [DecidableEq κ]
    (l : List (κ × α)) (k : κ) (v : α) :
    alistLookup (alistInsert l k v) k = some v := by
  induction l with
  | nil => simp [alistInsert, alistLookup]
  | cons p rest ih =>
    by_cases h : p.1 = k
    · simp [alistInsert, alistLookup, h]
    · simp [alistInsert, alistLookup, h, ih]

theorem alistLookup_insert_ne {κ α : Type} [DecidableEq κ]
    (l : List (κ × α)) (k k' : κ) (v : α) (hk : k ≠ k') :
    alistLookup (alistInsert l k v) k' = alistLookup l k' := by
  induction l with
  | nil => simp [alistInsert, alistLookup, hk]
  | cons p rest ih =>
    by_cases h : p.1 = k
    · simp [alistInsert, alistLookup, h, hk]
    · simp [alistInsert, alistLookup, h, ih]

theorem alistLookup_erase_self {κ α : Type} [DecidableEq κ]
    (l : List (κ × α)) (k : κ) :
    alistLookup (alistErase l k) k = none := by
  induction l with
  | nil => simp [alistErase, alistLookup]
  | cons p rest ih =>
    by_cases h : p.1 = k
    · simp [alistErase, h, ih]
    · simp [alistErase, alistLookup, h, ih]

theorem alistLookup_erase_ne {κ α : Type} [DecidableEq κ]
    (l : List (κ × α)) (k k' : κ) (hk : k ≠ k') :
    alistLookup (alistErase l k) k' = alistLookup l k' := by
  induction l with
  | nil => simp [alistErase]
  | cons p rest ih =>
    by_cases h : p.1 = k
    · subst h
      simp [alistErase, alistLookup, ih, hk]
    · simp [alistErase, alistLookup, h, ih]

/-! ## The TTL cache (C5, C10) -/

/-- C5: after `set(k,v)`, a `get(k)` before the TTL has elapsed returns `v`
and leaves the cache unchanged (no refresh-on-read); a `get(k)` once the
elapsed time is at least the TTL returns absent and deletes the entry, and
every subsequent `get(k)` without an intervening `set` still returns absent;
`set` always overwrites the previous entry, resetting its timestamp. -/
theorem cache_ttl_contract {α : Type} (c : Cache α) (k : String) (v : Option α)
    (now t : Nat) :
    (t - now < c.ttl →
      ((c.set k v now).get k t).1 = v ∧ ((c.set k v now).get k t).2 = c.set k v now) ∧
    (c.ttl ≤ t - now →
      ((c.set k v now).get k t).1 = none ∧
      alistLookup ((c.set k v now).get k t).2.entries k = none ∧
      ∀ t' : Nat, (((c.set k v now).get k t).2.get k t').1 = none) ∧
    (∀ (v' : Option α) (now' : Nat),
      alistLookup ((c.set k v now).set k v' now').entries k = some (v', now')) := by
  refine ⟨fun h => ?_, fun h => ?_, fun v' now' => ?_⟩
  · simp [Cache.get, Cache.set, alistLookup_insert_self, h]
  · have hnot : ¬ t - now < c.ttl := Nat.not_lt.mpr h
    simp [Cache.get, Cache.set, alistLookup_insert_self, hnot, alistLookup_erase_self]
  · simp [Cache.set, alistLookup_insert_self]

/-- Witness for C5 at ttl 10: a fresh read at tick 3 returns the value, an
expired read at tick 30 returns absent. -/
theorem cache_ttl_contract_witness :
    (((Cache.set ⟨[], 10⟩ "k" (some 5) 0).get "k" 3).1 = some 5) ∧
    (((Cache.set (⟨[], 10⟩ : Cache Nat) "k" (some 5) 0).get "k" 30).1 = none) :=
  ⟨((cache_ttl_contract ⟨[], 10⟩ "k" (some 5) 0 3).1 (by decide)).1,
   ((cache_ttl_contract (⟨[], 10⟩ : Cache Nat) "k" (some 5) 0 30).2.1 (by decide)).1⟩

/-- C10: after `set(k, None)`, a `get(k)` before the TTL has elapsed already
returns the absent sentinel (`None`), exactly what a miss on a cleared cache
returns; consequently `get_universities` with a cached `None` treats it as a
miss and performs the upstream fetch again. -/
theorem cache_none_miss {α : Type} (c : Cache α) (k : String) (now t : Nat)
    (cu : Cache (List RefEntry)) (f : Option (List RefEntry))
    (h : t - now < c.ttl) (h2 : t - now < cu.ttl) :
    ((c.set k none now).get k t).1 = none ∧
    ((c.set k none now).get k t).1 = (c.clear.get k t).1 ∧
    (get_universities (cu.set "universities" none now) t f).2.2 = true ∧
    (get_universities (cu.set "universities" none now) t f).1 = f.getD [] := by
  refine ⟨?_, ?_, ?_, ?_⟩ <;>
    simp [get_universities, Cache.get, Cache.set, Cache.clear,
      alistLookup_insert_self, alistLookup, h, h2]

/-- Witness for C10: a stored `None` under key `"universities"` read one tick
later is a miss, and the directory lookup re-fetches. -/
theorem cache_none_miss_witness :
    (((Cache.set (⟨[], 10⟩ : Cache Nat) "u" none 0).get "u" 1).1 = none) ∧
    ((get_universities (Cache.set ⟨[], 10⟩ "universities" none 0) 1
        (some [⟨"i1", ['T'], ['t']⟩])).2.2 = true) :=
  ⟨(cache_none_miss (⟨[], 10⟩ : Cache Nat) "u" 0 1 ⟨[], 10⟩ none (by decide)
      (by decide)).1,
   (cache_none_miss (⟨[], 10⟩ : Cache Nat) "universities" 0 1 ⟨[], 10⟩
      (some [⟨"i1", ['T'], ['t']⟩]) (by decide) (by decide)).2.2.1⟩

/-! ## The access gate (C1, C2) -/

/-- Counterexample to C1 as stated: `application_approved = true` alone does
not short-circuit `_check_access`.  With no `system_id` the check returns
`False` (not `True`), and with `status = PENDING` (approved flag set but
status not yet APPROVED) the remote approval-status query is still
issued. -/
theorem check_access_sticky_approval_cex :
    ((check_access
        ⟨1, ['a'], ['b'], ['c'], UserStatus.approved, none, none, true⟩
        (some true)).result = false) ∧
    ((check_access
        ⟨2, ['a'], ['b'], ['c'], UserStatus.pending, some "sid", none, true⟩
        (some true)).remoteCalled = true) := by
  decide

/-- C1 (amended): for every user whose `system_id` is present (truthy), whose
`application_approved` flag is true and whose `status` is APPROVED, the
access check returns true by short-circuit, leaves the record unchanged, and
never issues the remote approval-status query on that call. -/
theorem check_access_short_circuit (u : User) (api : Option Bool)
    (h1 : pyTruthyStr u.system_id = true)
    (h2 : u.application_approved = true)
    (h3 : u.status = UserStatus.approved) :
    check_access u api = ⟨u, true, false⟩ := by
  simp [check_access, h1, h2, h3]

/-- Witness for the amended C1: an approved user short-circuits even when the
remote service would be unreachable (`api = none`). -/
theorem check_access_short_circuit_witness :
    check_access
        ⟨3, ['a'], ['b'], ['c'], UserStatus.approved, some "sid", none, true⟩
        none =
      ⟨⟨3, ['a'], ['b'], ['c'], UserStatus.approved, some "sid", none, true⟩,
        true, false⟩ :=
  check_access_short_circuit _ none (by decide) (by decide) (by decide)

/-- C2: for a user whose `application_approved` is false, if the remote
approval-status query fails (request error/timeout, or a response without a
usable `approved` field — every case where `get_student_application_status`
yields `None`), the access check returns false and leaves the user record —
in particular `application_approved` and `status` — unchanged. -/
theorem check_access_fail_closed (u : User)
    (resp : Option (List (String × Bool)))
    (h0 : u.application_approved = false)
    (hfail : get_student_application_status resp = none) :
    (check_access u (get_student_application_status resp)).user = u ∧
    (check_access u (get_student_application_status resp)).result = false := by
  rw [hfail]
  by_cases hs : pyTruthyStr u.system_id <;> simp [check_access, h0, hs]

/-- Witness for C2: a pending user and a response carrying no `approved`
field leave the record unchanged and the check false. -/
theorem check_access_fail_closed_witness :
    (check_access
        ⟨4, ['a'], ['b'], ['c'], UserStatus.pending, some "sid", none, false⟩
        (get_student_application_status (some [("other", true)]))).user =
      ⟨4, ['a'], ['b'], ['c'], UserStatus.pending, some "sid", none, false⟩ ∧
    (check_access
        ⟨4, ['a'], ['b'], ['c'], UserStatus.pending, some "sid", none, false⟩
        (get_student_application_status (some [("other", true)]))).result =
      false :=
  check_access_fail_closed _ (some [("other", true)]) (by decide) (by decide)

/-! ## Exclusivity of pending registrations and user records (C3) -/

theorem inv_init : Inv initState := fun _ => Or.inl rfl

theorem users_none_of_pending_some {s : BotState} (hInv : Inv s) {uid : Nat}
    {rd : RegData} (h : alistLookup s.pending uid = some rd) :
    alistLookup s.users uid = none := by
  rcases hInv uid with h1 | h2
  · exact h1
  · rw [h] at h2; cases h2

theorem pending_none_of_users_some {s : BotState} (hInv : Inv s) {uid : Nat}
    {u : User} (h : alistLookup s.users uid = some u) :
    alistLookup s.pending uid = none := by
  rcases hInv uid with h1 | h2
  · rw [h] at h1; cases h1
  · exact h2

theorem disj_insert_pending {users : List (Nat × User)}
    {pending : List (Nat × RegData)}
    (h : ∀ k, alistLookup users k = none ∨ alistLookup pending k = none)
    {uid : Nat} (rd : RegData) (hu : alistLookup users uid = none) :
    ∀ k, alistLookup users k = none ∨
      alistLookup (alistInsert pending uid rd) k = none := by
  intro k
  by_cases hk : uid = k
  · exact Or.inl (hk ▸ hu)
  · rcases h k with h1 | h2
    · exact Or.inl h1
    · exact Or.inr ((alistLookup_insert_ne _ _ _ _ hk).trans h2)

theorem disj_insert_users {users : List (Nat × User)}
    {pending : List (Nat × RegData)}
    (h : ∀ k, alistLookup users k = none ∨ alistLookup pending k = none)
    {uid : Nat} (u : User) (hp : alistLookup pending uid = none) :
    ∀ k, alistLookup (alistInsert users uid u) k = none ∨
      alistLookup pending k = none := by
  intro k
  by_cases hk : uid = k
  · exact Or.inr (hk ▸ hp)
  · rcases h k with h1 | h2
    · exact Or.inl ((alistLookup_insert_ne _ _ _ _ hk).trans h1)
    · exact Or.inr h2

theorem disj_erase_users {users : List (Nat × User)}
    {pending : List (Nat × RegData)}
    (h : ∀ k, alistLookup users k = none ∨ alistLookup pending k = none)
    (uid : Nat) :
    ∀ k, alistLookup (alistErase users uid) k = none ∨
      alistLookup pending k = none := by
  intro k
  by_cases hk : uid = k
  · exact Or.inl (hk ▸ alistLookup_erase_self _ _)
  · rcases h k with h1 | h2
    · exact Or.inl ((alistLookup_erase_ne _ _ _ hk).trans h1)
    · exact Or.inr h2

theorem disj_reinsert_pending {users : List (Nat × User)}
    {pending : List (Nat × RegData)}
    (h : ∀ k, alistLookup users k = none ∨ alistLookup pending k = none)
    {uid : Nat} (rd : RegData) (hu : alistLookup users uid = none) :
    ∀ k, alistLookup users k = none ∨
      alistLookup (alistInsert (alistErase pending uid) uid rd) k = none := by
  intro k
  by_cases hk : uid = k
  · exact Or.inl (hk ▸ hu)
  · rcases h k with h1 | h2
    · exact Or.inl h1
    · exact Or.inr
        ((alistLookup_insert_ne _ _ _ _ hk).trans
          ((alistLookup_erase_ne _ _ _ hk).trans h2))

theorem disj_commit {users : List (Nat × User)}
    {pending : List (Nat × RegData)}
    (h : ∀ k, alistLookup users k = none ∨ alistLookup pending k = none)
    (uid : Nat) (u : User) :
    ∀ k, alistLookup (alistInsert users uid u) k = none ∨
      alistLookup (alistErase pending uid) k = none := by
  intro k
  by_cases hk : uid = k
  · exact Or.inr (hk ▸ alistLookup_erase_self _ _)
  · rcases h k with h1 | h2
    · exact Or.inl ((alistLookup_insert_ne _ _ _ _ hk).trans h1)
    · exact Or.inr ((alistLookup_erase_ne _ _ _ hk).trans h2)

theorem handle_university_selection_shape (uid : Nat) (look : Option RefEntry)
    (label : List Char) (s : BotState) :
    (handle_university_selection uid look label s).1 = s ∨
    ∃ rd rd', alistLookup s.pending uid = some rd ∧
      (handle_university_selection uid look label s).1 =
        { s with pending := alistInsert s.pending uid rd' } := by
  rcases h : alistLookup s.pending uid with _ | rd
  · left; simp [handle_university_selection, h]
  · rcases look with _ | inst
    · left; simp [handle_university_selection, h]
    · right
      refine ⟨rd, { rd with university := some label,
                            institution_id := some inst.id,
                            step := RStep.faculty }, rfl, ?_⟩
      simp [handle_university_selection, h]

theorem handle_faculty_selection_shape (uid : Nat) (look : Option RefEntry)
    (label : List Char) (s : BotState) :
    (handle_faculty_selection uid look label s).1 = s ∨
    ∃ rd rd', alistLookup s.pending uid = some rd ∧
      (handle_faculty_selection uid look label s).1 =
        { s with pending := alistInsert s.pending uid rd' } := by
  rcases h : alistLookup s.pending uid with _ | rd
  · left; simp [handle_faculty_selection, h]
  · by_cases ht : pyTruthyStr rd.institution_id
    · rcases look with _ | fac
      · left; simp [handle_faculty_selection, h, ht]
      · right
        refine ⟨rd, { rd with faculty := some label,
                              faculty_id := some fac.id,
                              step := RStep.group }, rfl, ?_⟩
        simp [handle_faculty_selection, h, ht]
    · left; simp [handle_faculty_selection, h, ht]

theorem handle_group_selection_shape (uid : Nat) (look : Option RefEntry)
    (label : List Char) (s : BotState) :
    (handle_group_selection uid look label s).1 = s ∨
    ∃ rd rd', alistLookup s.pending uid = some rd ∧
      (handle_group_selection uid look label s).1 =
        { s with pending := alistInsert s.pending uid rd' } := by
  rcases h : alistLookup s.pending uid with _ | rd
  · left; simp [handle_group_selection, h]
  · by_cases ht : pyTruthyStr rd.institution_id ∧ pyTruthyStr rd.faculty_id
    · rcases look with _ | grp
      · left; simp [handle_group_selection, h, ht]
      · right
        refine ⟨rd, { rd with group := some label,
                              group_id := some grp.id,
                              step := RStep.confirmation }, rfl, ?_⟩
        simp [handle_group_selection, h, ht]
    · left; simp [handle_group_selection, h, ht]

theorem complete_registration_shape (uid : Nat) (rd : RegData) (b : Bool)
    (sid : Option String) (s : BotState) :
    (complete_registration uid rd b sid s).1 = s ∨
    ∃ u, (complete_registration uid rd b sid s).1 =
      { s with users := alistInsert s.users uid u,
               pending := alistErase s.pending uid } := by
  rcases hfn : rd.full_name with _ | fn
  · left; simp [complete_registration, hfn]
  · rcases hun : rd.university with _ | un
    · left; simp [complete_registration, hfn, hun]
    · rcases hg : rd.group with _ | g
      · left; simp [complete_registration, hfn, hun, hg]
      · right
        refine ⟨⟨uid, fn, un, g, UserStatus.pending, sid, rd.faculty, false⟩, ?_⟩
        simp [complete_registration, hfn, hun, hg]

theorem complete_registration_commit (uid : Nat) (rd : RegData) (b : Bool)
    (sid : Option String) (s s' : BotState) (w : Bool)
    (h : complete_registration uid rd b sid s = (s', CommitResult.registered w)) :
    alistLookup s'.pending uid = none ∧
    ∃ u, alistLookup s'.users uid = some u := by
  unfold complete_registration at h
  rcases hfn : rd.full_name with _ | fn <;> rw [hfn] at h
  · simp at h
  · rcases hun : rd.university with _ | un <;> rw [hun] at h
    · simp at h
    · rcases hg : rd.group with _ | g <;> rw [hg] at h
      · simp at h
      · simp only [Prod.mk.injEq] at h
        rcases h with ⟨hs, -⟩
        subst hs
        exact ⟨alistLookup_erase_self _ _, _, alistLookup_insert_self _ _ _⟩

theorem inv_step {alpha space : Char → Bool} {s s' : BotState}
    (hInv : Inv s) (hstep : SysStep alpha space s s') : Inv s' := by
  cases hstep with
  | botStartedNew chatId uid h =>
    intro k
    simpa [start_registration, touch_chat] using
      disj_insert_pending hInv (fresh_reg chatId) h k
  | botStartedKnown chatId uid u h =>
    intro k
    simpa [touch_chat] using hInv k
  | msgRegistration chatId uid rd text h =>
    intro k
    simpa [touch_chat] using
      disj_insert_pending hInv
        (handle_registration_full_name alpha space rd text)
        (users_none_of_pending_some hInv h) k
  | msgStartRegistration chatId uid hp hu =>
    intro k
    simpa [start_registration, touch_chat] using
      disj_insert_pending hInv (fresh_reg chatId) hu k
  | msgUserUpdate chatId uid u u' h =>
    intro k
    simpa [touch_chat] using
      disj_insert_users hInv u' (pending_none_of_users_some hInv h) k
  | universitySel uid look label =>
    rcases handle_university_selection_shape uid look label s
      with h | ⟨rd, rd', hrd, h⟩
    · rw [h]; exact hInv
    · rw [h]
      intro k
      simpa using
        disj_insert_pending hInv rd' (users_none_of_pending_some hInv hrd) k
  | facultySel uid look label =>
    rcases handle_faculty_selection_shape uid look label s
      with h | ⟨rd, rd', hrd, h⟩
    · rw [h]; exact hInv
    · rw [h]
      intro k
      simpa using
        disj_insert_pending hInv rd' (users_none_of_pending_some hInv hrd) k
  | groupSel uid look label =>
    rcases handle_group_selection_shape uid look label s
      with h | ⟨rd, rd', hrd, h⟩
    · rw [h]; exact hInv
    · rw [h]
      intro k
      simpa using
        disj_insert_pending hInv rd' (users_none_of_pending_some hInv hrd) k
  | confirmYes uid rd regSuccess sysId h =>
    rcases complete_registration_shape uid rd regSuccess sysId s with hs | ⟨u, hs⟩
    · rw [hs]; exact hInv
    · rw [hs]
      intro k
      simpa using disj_commit hInv uid u k
  | confirmNo chatId uid rd h =>
    intro k
    simpa [restart_registration, start_registration] using
      disj_reinsert_pending hInv (fresh_reg chatId)
        (users_none_of_pending_some hInv h) k
  | studentNotFound uid =>
    intro k
    simpa [student_not_found_cleanup] using disj_erase_users hInv uid k
  | forceRestart chatId uid =>
    intro k
    simpa [force_restart_registration, start_registration] using
      disj_reinsert_pending (disj_erase_users hInv uid) (fresh_reg chatId)
        (alistLookup_erase_self _ _) k

/-- C3: in the serialized event-step semantics, every reachable state
satisfies the exclusivity invariant — no user id ever has both a pending
registration and a user record — and the commit performed by
`complete_registration` removes the pending registration and inserts the
user record in the same atomic step (its two dict mutations have no
suspension point between them in the source). -/
theorem pending_user_exclusive :
    (∀ (alpha space : Char → Bool) (s : BotState),
      Reachable alpha space s → Inv s) ∧
    (∀ (uid : Nat) (rd : RegData) (b : Bool) (sid : Option String)
      (s s' : BotState) (w : Bool),
      complete_registration uid rd b sid s = (s', CommitResult.registered w) →
      alistLookup s'.pending uid = none ∧
      ∃ u, alistLookup s'.users uid = some u) := by
  constructor
  · intro alpha space s h
    induction h with
    | refl => exact inv_init
    | tail _ hstep ih => exact inv_step ih hstep
  · exact complete_registration_commit

/-- Witness for C3: the state after one registration-start event satisfies
the invariant, and a concrete commit of user 1 leaves no pending entry and a
stored user record. -/
theorem pending_user_exclusive_witness :
    Inv (start_registration 5 7 (touch_chat 5 7 initState)) ∧
    (alistLookup
        (⟨[(1, ⟨1, ['I','v'], ['U'], ['G'], UserStatus.pending, none, none,
            false⟩)], [], []⟩ : BotState).pending 1 = none ∧
     ∃ u, alistLookup
        (⟨[(1, ⟨1, ['I','v'], ['U'], ['G'], UserStatus.pending, none, none,
            false⟩)], [], []⟩ : BotState).users 1 = some u) :=
  ⟨pending_user_exclusive.1 (fun _ => false) (fun c => c == ' ')
      (start_registration 5 7 (touch_chat 5 7 initState))
      (Relation.ReflTransGen.refl.tail (SysStep.botStartedNew initState 5 7 rfl)),
   pending_user_exclusive.2 1
      ⟨RStep.confirmation, 5, some ['I','v'], some ['U'], some "i1", none,
        some "f1", some ['G'], some "g1"⟩
      true none
      ⟨[], [(1, ⟨RStep.confirmation, 5, some ['I','v'], some ['U'], some "i1",
        none, some "f1", some ['G'], some "g1"⟩)], []⟩
      ⟨[(1, ⟨1, ['I','v'], ['U'], ['G'], UserStatus.pending, none, none,
        false⟩)], [], []⟩
      false (by decide)⟩

/-! ## Ordered acceptance of selection callbacks (C4) -/

theorem truthy_ne_none {o : Option String} (h : pyTruthyStr o = true) :
    o ≠ none := by
  intro hn; subst hn; simp [pyTruthyStr] at h

/-- C4: a FACULTY-step selection against a pending registration whose
`institution_id` is absent, and a GROUP-step selection whose
`institution_id` or `faculty_id` is absent, are rejected with the state
unchanged (no field stored, step not advanced); conversely a selection is
accepted (returns true) only when the corresponding parent ids are already
present in the pending record. -/
theorem selection_requires_parent_ids :
    (∀ (s : BotState) (uid : Nat) (look : Option RefEntry) (label : List Char)
      (rd : RegData), alistLookup s.pending uid = some rd →
      rd.institution_id = none →
      handle_faculty_selection uid look label s = (s, false)) ∧
    (∀ (s : BotState) (uid : Nat) (look : Option RefEntry) (label : List Char)
      (rd : RegData), alistLookup s.pending uid = some rd →
      rd.institution_id = none ∨ rd.faculty_id = none →
      handle_group_selection uid look label s = (s, false)) ∧
    (∀ (s : BotState) (uid : Nat) (look : Option RefEntry) (label : List Char)
      (s' : BotState), handle_faculty_selection uid look label s = (s', true) →
      ∃ rd, alistLookup s.pending uid = some rd ∧ rd.institution_id ≠ none) ∧
    (∀ (s : BotState) (uid : Nat) (look : Option RefEntry) (label : List Char)
      (s' : BotState), handle_group_selection uid look label s = (s', true) →
      ∃ rd, alistLookup s.pending uid = some rd ∧
        rd.institution_id ≠ none ∧ rd.faculty_id ≠ none) := by
  refine ⟨?_, ?_, ?_, ?_⟩
  · intro s uid look label rd hrd hinst
    simp [handle_faculty_selection, hrd, hinst, pyTruthyStr]
  · intro s uid look label rd hrd hids
    rcases hids with hinst | hfac
    · simp [handle_group_selection, hrd, hinst, pyTruthyStr]
    · simp [handle_group_selection, hrd, hfac, pyTruthyStr]
  · intro s uid look label s' h
    rcases hrd : alistLookup s.pending uid with _ | rd
    · simp [handle_faculty_selection, hrd] at h
    · by_cases ht : pyTruthyStr rd.institution_id
      · exact ⟨rd, rfl, truthy_ne_none ht⟩
      · simp [handle_faculty_selection, hrd, ht] at h
  · intro s uid look label s' h
    rcases hrd : alistLookup s.pending uid with _ | rd
    · simp [handle_group_selection, hrd] at h
    · by_cases h1 : pyTruthyStr rd.institution_id
      · by_cases h2 : pyTruthyStr rd.faculty_id
        · exact ⟨rd, rfl, truthy_ne_none h1, truthy_ne_none h2⟩
        · simp [handle_group_selection, hrd, h1, h2] at h
      · simp [handle_group_selection, hrd, h1] at h

/-- Witness for C4: a group selection pressed while the pending record is
still at FULL_NAME (no ids collected) is rejected and changes nothing. -/
theorem selection_requires_parent_ids_witness :
    handle_group_selection 1 (some ⟨"g1", ['G'], ['g']⟩) ['G']
      ⟨[], [(1, fresh_reg 5)], []⟩ =
      ((⟨[], [(1, fresh_reg 5)], []⟩ : BotState), false) :=
  selection_requires_parent_ids.2.1 ⟨[], [(1, fresh_reg 5)], []⟩ 1
    (some ⟨"g1", ['G'], ['g']⟩) ['G'] (fresh_reg 5) (by decide) (Or.inl rfl)

/-! ## Commit behaviour on external registration failure (C7) -/

/-- C7: a confirmation commit (all collected fields present in the pending
record, as is the case whenever the CONFIRMATION step was reached) whose
external registration call failed (`register_user_in_system` returned
false) still creates the local user record carrying the collected input,
and the outcome surfaced to the user carries the "not synchronized with
StudGram" warning. -/
theorem commit_failure_keeps_input (uid : Nat) (rd : RegData)
    (sysId : Option String) (s : BotState) (fn un g : List Char)
    (hfn : rd.full_name = some fn) (hun : rd.university = some un)
    (hg : rd.group = some g) :
    alistLookup (complete_registration uid rd false sysId s).1.users uid =
      some ⟨uid, fn, un, g, UserStatus.pending, sysId, rd.faculty, false⟩ ∧
    (complete_registration uid rd false sysId s).2 =
      CommitResult.registered true := by
  simp [complete_registration, hfn, hun, hg, alistLookup_insert_self]

/-- Witness for C7: a concrete failed commit still stores the record and
warns. -/
theorem commit_failure_keeps_input_witness :
    alistLookup (complete_registration 9
      ⟨RStep.confirmation, 5, some ['I','v'], some ['U'], some "i1", none,
        some "f1", some ['G'], some "g1"⟩ false (some "sys") initState).1.users
      9 =
      some ⟨9, ['I','v'], ['U'], ['G'], UserStatus.pending, some "sys", none,
        false⟩ ∧
    (complete_registration 9
      ⟨RStep.confirmation, 5, some ['I','v'], some ['U'], some "i1", none,
        some "f1", some ['G'], some "g1"⟩ false (some "sys") initState).2 =
      CommitResult.registered true :=
  commit_failure_keeps_input 9
    ⟨RStep.confirmation, 5, some ['I','v'], some ['U'], some "i1", none,
      some "f1", some ['G'], some "g1"⟩
    (some "sys") initState ['I','v'] ['U'] ['G'] rfl rfl rfl

/-! ## Callback codec round-trip (C6) -/

theorem split_first_append (sep : Char) (a r : List Char) (h : sep ∉ a) :
    split_first sep (a ++ sep :: r) = some (a, r) := by
  induction a with
  | nil => simp [split_first]
  | cons c rest ih =>
    rw [List.mem_cons, not_or] at h
    obtain ⟨h1, h2⟩ := h
    simp [split_first, Ne.symm h1, ih h2]

theorem py_replace_round (l : List Char) (h : '_' ∉ l) :
    py_replace '_' ' ' (py_replace ' ' '_' l) = l := by
  induction l with
  | nil => rfl
  | cons c rest ih =>
    rw [List.mem_cons, not_or] at h
    obtain ⟨h1, h2⟩ := h
    by_cases hc : c = ' '
    · subst hc
      simpa [py_replace] using ih h2
    · simpa [py_replace, hc, Ne.symm h1] using ih h2

/-- C6: for every action token and args (the numeric user id and the display
label, possibly containing spaces) that do not contain the separator
character `'_'`, decoding the encoded callback payload recovers exactly the
original action and args. -/
theorem callback_roundtrip (action userId label : List Char)
    (ha : '_' ∉ action) (hu : '_' ∉ userId) (hl : '_' ∉ label) :
    decode_selection (encode_selection action userId label) =
      some (action, userId, label) := by
  unfold encode_selection decode_selection
  simp [split_first_append '_' action _ ha, split_first_append '_' userId _ hu,
    py_replace_round label hl]

/-- Witness for C6: a group selection for user 12 with the two-word label
"AB C" survives the round trip. -/
theorem callback_roundtrip_witness :
    decode_selection (encode_selection ['g','r','o','u','p'] ['1','2']
        ['A','B',' ','C']) =
      some (['g','r','o','u','p'], ['1','2'], ['A','B',' ','C']) :=
  callback_roundtrip ['g','r','o','u','p'] ['1','2'] ['A','B',' ','C']
    (by decide) (by decide) (by decide)

/-! ## Acting-user resolution for payloads with no embedded id (C8) -/

/-- Counterexample to C8 as stated: with chat 7 absent from the chat index,
no pending registration, and TWO user records in `users_db`, the resolution
does not fail — it picks the first user (id 1) in dict insertion order. -/
theorem resolve_first_user_cex :
    ((⟨[(1, ⟨1, ['a'], ['b'], ['c'], UserStatus.pending, none, none, false⟩),
        (2, ⟨2, ['a'], ['b'], ['c'], UserStatus.pending, none, none, false⟩)],
       [], []⟩ : BotState).users.length = 2) ∧
    (alistLookup
      (⟨[(1, ⟨1, ['a'], ['b'], ['c'], UserStatus.pending, none, none, false⟩),
         (2, ⟨2, ['a'], ['b'], ['c'], UserStatus.pending, none, none, false⟩)],
        [], []⟩ : BotState).activeChats 7 = none) ∧
    ((resolve_menu_user
      ⟨[(1, ⟨1, ['a'], ['b'], ['c'], UserStatus.pending, none, none, false⟩),
        (2, ⟨2, ['a'], ['b'], ['c'], UserStatus.pending, none, none, false⟩)],
       [], []⟩ 7).1 = some 1) := by
  decide

/-- C8 (amended): when the payload embeds no user id, the chat is absent
from the chat index and no pending registration matches, the acting user is
assumed to be the FIRST user record in insertion order whenever at least one
exists (with a nonzero id) — not only when exactly one exists; resolution
fails only when no user record exists at all. -/
theorem resolve_menu_user_fallback (s : BotState) (chatId : Nat)
    (hchat : alistLookup s.activeChats chatId = none)
    (hpend : s.pending.find? (fun p => p.2.chat_id == chatId) = none) :
    (s.users = [] → (resolve_menu_user s chatId).1 = none) ∧
    (∀ (uid : Nat) (u : User) (rest : List (Nat × User)),
      s.users = (uid, u) :: rest → uid ≠ 0 →
      (resolve_menu_user s chatId).1 = some uid) := by
  constructor
  · intro hu
    simp [resolve_menu_user, hchat, hpend, fallback_users, hu, pyFinalize,
      pyTruthyId]
  · intro uid u rest hu hne
    simp [resolve_menu_user, hchat, hpend, fallback_users, hu, pyFinalize,
      pyTruthyId, hne]

/-- Witness for the amended C8: the sole user record (id 3) is assumed, and
with no user records resolution fails. -/
theorem resolve_menu_user_fallback_witness :
    ((resolve_menu_user
        ⟨[(3, ⟨3, ['a'], ['b'], ['c'], UserStatus.pending, none, none,
          false⟩)], [], []⟩ 7).1 = some 3) ∧
    ((resolve_menu_user initState 7).1 = none) :=
  ⟨(resolve_menu_user_fallback
      ⟨[(3, ⟨3, ['a'], ['b'], ['c'], UserStatus.pending, none, none, false⟩)],
        [], []⟩ 7 rfl rfl).2 3
      ⟨3, ['a'], ['b'], ['c'], UserStatus.pending, none, none, false⟩ [] rfl
      (by decide),
   (resolve_menu_user_fallback initState 7 rfl rfl).1 rfl⟩

/-! ## FULL_NAME validation and transition (C9) -/

theorem validate_full_name_eq_true (alpha space : Char → Bool)
    (text : List Char)
    (h1 : 2 ≤ (pyWords space text).length)
    (h2 : (pyWords space text).length ≤ 3)
    (h3 : ∀ p ∈ pyWords space text, pyIsAlpha alpha p = true)
    (h4 : 5 ≤ text.length) :
    (validate_full_name alpha space text).1 = true := by
  unfold validate_full_name
  have hn1 : ¬ (pyWords space text).length < 2 := by omega
  have hn2 : ¬ 3 < (pyWords space text).length := by omega
  have hn3 : (pyWords space text).any (fun part => !pyIsAlpha alpha part)
      = false := by
    rw [List.any_eq_false]
    intro p hp
    simp [h3 p hp]
  have hn4 : ¬ text.length < 5 := by omega
  simp [hn1, hn2, hn3, hn4]

theorem validate_full_name_eq_false (alpha space : Char → Bool)
    (text : List Char)
    (h : (pyWords space text).length < 2 ∨ 3 < (pyWords space text).length ∨
      (∃ p ∈ pyWords space text, pyIsAlpha alpha p = false) ∨
      text.length < 5) :
    (validate_full_name alpha space text).1 = false := by
  unfold validate_full_name
  by_cases h1 : (pyWords space text).length < 2
  · simp [h1]
  · by_cases h2 : 3 < (pyWords space text).length
    · simp [h1, h2]
    · by_cases h3 : (pyWords space text).any (fun part => !pyIsAlpha alpha part)
      · simp [h1, h2, h3]
      · have h4 : text.length < 5 := by
          rcases h with ha | hb | hc | hd
          · omega
          · omega
          · exfalso
            rcases hc with ⟨p, hp, hfalse⟩
            rw [Bool.not_eq_true, List.any_eq_false] at h3
            have := h3 p hp
            simp [hfalse] at this
          · exact hd
        simp [h1, h2, h3, h4]

/-- C9: a text input with fewer than 2 or more than 3 whitespace-separated
tokens, or a non-alphabetic token, or total length below 5, is rejected by
FULL_NAME validation and the registration state stays at FULL_NAME with no
field stored; an input with 2-3 alphabetic tokens and total length at least
5 is accepted, its text stored as the full name, and the state advanced to
UNIVERSITY. -/
theorem full_name_validation_gate (alpha space : Char → Bool)
    (text : List Char) (rd : RegData) (hstep : rd.step = RStep.full_name) :
    ((pyWords space text).length < 2 ∨ 3 < (pyWords space text).length ∨
      (∃ p ∈ pyWords space text, pyIsAlpha alpha p = false) ∨
      text.length < 5 →
      (validate_full_name alpha space text).1 = false ∧
      handle_registration_full_name alpha space rd text = rd) ∧
    (2 ≤ (pyWords space text).length → (pyWords space text).length ≤ 3 →
      (∀ p ∈ pyWords space text, pyIsAlpha alpha p = true) →
      5 ≤ text.length →
      (validate_full_name alpha space text).1 = true ∧
      handle_registration_full_name alpha space rd text =
        { rd with full_name := some text, step := RStep.university }) := by
  constructor
  · intro h
    have hv := validate_full_name_eq_false alpha space text h
    exact ⟨hv, by simp [handle_registration_full_name, hstep, hv]⟩
  · intro h1 h2 h3 h4
    have hv := validate_full_name_eq_true alpha space text h1 h2 h3 h4
    exact ⟨hv, by simp [handle_registration_full_name, hstep, hv]⟩

/-- Witness for C9: with ASCII letters for the alphabetic class and the
space character as whitespace, "Ivan Petrov" (two alphabetic tokens, length
11) is accepted at the FULL_NAME step and moves the record to UNIVERSITY. -/
theorem full_name_validation_gate_witness :
    (validate_full_name Char.isAlpha (fun c => c == ' ')
      ['I','v','a','n',' ','P','e','t','r','o','v']).1 = true ∧
    handle_registration_full_name Char.isAlpha (fun c => c == ' ')
        (fresh_reg 5) ['I','v','a','n',' ','P','e','t','r','o','v'] =
      { fresh_reg 5 with
          full_name := some ['I','v','a','n',' ','P','e','t','r','o','v'],
          step := RStep.university } :=
  (full_name_validation_gate Char.isAlpha (fun c => c == ' ')
    ['I','v','a','n',' ','P','e','t','r','o','v'] (fresh_reg 5) rfl).2
    (by decide) (by decide) (by decide) (by decide)

end StudGram
